import Mathlib

/-!
Shallow embedding of the dispatch/validation layer in src/include/dftd_cblas.h
(namespace dftd4): the three BLAS wrapper operations BLAS_Add_Mat_x_Vec,
BLAS_Add_Mat_x_Mat and BLAS_InvertMatrix, in both build configurations
(the vendor CBLAS/LAPACKE path and the Eigen path).

Doubles are modelled as rationals; buffers as flat row-major lists.  The
external numerical kernels are modelled by their documented reference
semantics (cblas_dgemv, cblas_dgemm) or kept as parameters (LAPACKE
factorization steps, the Eigen inverse), since they are external
collaborators of this layer.  A call that hands the backend a buffer
shorter than the backend is documented to read or write is modelled as the
outcome CStatus.undef (undefined behaviour); a call to the C exit function
is modelled as CStatus.exited.
-/

namespace dftd4

/-- Modelled from the spec: the dense matrix storage type of
dftd_matrix.h (only declared, not present under src/): row count, column
count and a pointer to rows x cols contiguous doubles in row-major order.
The buffer is the list p; well-formedness of the length is WF below. -/
structure TMatrix where
  rows : Nat
  cols : Nat
  p : List ℚ
deriving DecidableEq

/-- Modelled from the spec: the dense vector storage type of
dftd_matrix.h (only declared, not present under src/): length N and a
pointer to N contiguous doubles. -/
structure TVector where
  N : Nat
  p : List ℚ
deriving DecidableEq

/-- Buffer length matches the recorded shape. -/
def TMatrix.WF (A : TMatrix) : Prop := A.p.length = A.rows * A.cols

/-- Buffer length matches the recorded length. -/
def TVector.WF (V : TVector) : Prop := V.p.length = V.N

/-- How a call to one of the wrappers ends: a normal return with an exit
code, a process termination through the C exit function, or undefined
behaviour (an out-of-bounds buffer access inside the backend call, or a
failed Eigen dimension assertion). -/
inductive CStatus where
  | returned : Nat → CStatus
  | exited : Nat → CStatus
  | undef : CStatus
deriving DecidableEq

def EXIT_SUCCESS : Nat := 0
def EXIT_FAILURE : Nat := 1

/-- Outcome of a gemv wrapper call: how it ended, the final contents of
the result vector C (meaningless when the status is undef), and whether a
backend kernel call was issued. -/
structure GemvOut where
  status : CStatus
  C : TVector
  backendCalled : Bool
deriving DecidableEq

/-- Outcome of a gemm wrapper call, as for GemvOut. -/
structure GemmOut where
  status : CStatus
  C : TMatrix
  backendCalled : Bool
deriving DecidableEq

/-- Reference semantics of row-major cblas_dgemv, the vendor backend
kernel: y gets beta * y + alpha * op(A) * x, where A is an M x N matrix
with leading dimension lda, op(A) = transpose of A when trans is set.  The
kernel reads x over the inner dimension of op(A) and writes y over its
outer dimension; when a buffer is shorter than that documented extent the
access is out of bounds, modelled as none. -/
def cblas_dgemv (trans : Bool) (M N : Nat) (alpha : ℚ) (A : List ℚ)
    (lda : Nat) (X : List ℚ) (beta : ℚ) (Y : List ℚ) : Option (List ℚ) :=
  let lenX := if trans then M else N
  let lenY := if trans then N else M
  if lenX ≤ X.length ∧ lenY ≤ Y.length ∧ M * lda ≤ A.length then
    some ((List.range Y.length).map (fun i =>
      if i < lenY then
        beta * Y.getD i 0 +
          alpha * (List.range lenX).foldr (fun k s =>
            s + (if trans then A.getD (k * lda + i) 0
                 else A.getD (i * lda + k) 0) * X.getD k 0) 0
      else Y.getD i 0))
  else none

/-- Embedding of BLAS_Add_Mat_x_Vec, vendor (CBLAS) build: the shape
check A.rows == C.N and A.cols == V.N guards both transpose branches, and
on success cblas_dgemv is called with CblasTrans or CblasNoTrans, M =
A.rows, N = A.cols, lda = A.cols, beta = 1. -/
def BLAS_Add_Mat_x_Vec_cblas (C : TVector) (A : TMatrix) (V : TVector)
    (Transpose : Bool) (alpha : ℚ) : GemvOut :=
  if A.rows = C.N ∧ A.cols = V.N then
    match cblas_dgemv Transpose A.rows A.cols alpha A.p A.cols V.p 1 C.p with
    | some y => ⟨.returned EXIT_SUCCESS, ⟨C.N, y⟩, true⟩
    | none => ⟨.undef, C, true⟩
  else ⟨.returned EXIT_FAILURE, C, false⟩

/-- Entry (i, j) of op(A): A transposed when T is set, A itself
otherwise, reading the flat row-major buffer of A. -/
def opA (T : Bool) (A : TMatrix) (i j : Nat) : ℚ :=
  if T then A.p.getD (j * A.cols + i) 0 else A.p.getD (i * A.cols + j) 0

/-- Row count of op(A). -/
def opRows (T : Bool) (A : TMatrix) : Nat := if T then A.cols else A.rows

/-- Column count of op(A). -/
def opCols (T : Bool) (A : TMatrix) : Nat := if T then A.rows else A.cols

/-- The accumulate update the Eigen expression eigenC += alpha * op(A) *
eigenV evaluates to, entrywise on the flat buffer of C. -/
def eigenGemvUpdate (T : Bool) (A : TMatrix) (V C : List ℚ)
    (alpha : ℚ) : List ℚ :=
  (List.range C.length).map (fun i =>
    C.getD i 0 + alpha * (List.range (opCols T A)).foldr (fun j s =>
      s + opA T A i j * V.getD j 0) 0)

/-- Embedding of BLAS_Add_Mat_x_Vec, Eigen build: the same shape check
A.rows == C.N and A.cols == V.N, then eigenC += alpha * op(A) * eigenV.
The Eigen product is only defined when the inner dimension of op(A)
matches the length of V and its outer dimension matches the length of C;
otherwise the expression fails the Eigen runtime dimension assertion,
modelled as undef. -/
def BLAS_Add_Mat_x_Vec_eigen (C : TVector) (A : TMatrix) (V : TVector)
    (Transpose : Bool) (alpha : ℚ) : GemvOut :=
  if A.rows = C.N ∧ A.cols = V.N then
    if opCols Transpose A = V.N ∧ opRows Transpose A = C.N then
      ⟨.returned EXIT_SUCCESS,
        ⟨C.N, eigenGemvUpdate Transpose A V.p C.p alpha⟩, true⟩
    else ⟨.undef, C, true⟩
  else ⟨.returned EXIT_FAILURE, C, false⟩

/-- Reference semantics of row-major cblas_dgemm, the vendor backend
kernel: Cbuf gets beta * Cbuf + alpha * op(A) * op(B), where op(A) is M x
K, op(B) is K x N and Cbuf is M x N with leading dimension ldc.  All four
wrapper call sites below pass arguments whose documented buffer extents
are satisfied whenever the dimension checks before them pass on
well-formed operands, so this model reads with a default of zero instead
of tracking out-of-bounds accesses. -/
def cblas_dgemm (tA tB : Bool) (M N K : Nat) (alpha : ℚ) (A : List ℚ)
    (lda : Nat) (B : List ℚ) (ldb : Nat) (beta : ℚ) (Cbuf : List ℚ)
    (ldc : Nat) : List ℚ :=
  (List.range Cbuf.length).map (fun idx =>
    let i := idx / ldc
    let j := idx % ldc
    if i < M ∧ j < N then
      beta * Cbuf.getD idx 0 +
        alpha * (List.range K).foldr (fun k s =>
          s + (if tA then A.getD (k * lda + i) 0 else A.getD (i * lda + k) 0)
            * (if tB then B.getD (j * ldb + k) 0 else B.getD (k * ldb + j) 0)) 0
    else Cbuf.getD idx 0)

/-- The degeneracy condition rejected first by BLAS_Add_Mat_x_Mat in both
builds, in the exact order of the source: a zero extent on A, B or C. -/
def gemmDegenerate (C A B : TMatrix) : Prop :=
  A.cols = 0 ∨ A.rows = 0 ∨ B.cols = 0 ∨ B.rows = 0 ∨ C.cols = 0 ∨ C.rows = 0

instance (C A B : TMatrix) : Decidable (gemmDegenerate C A B) := by
  unfold gemmDegenerate; infer_instance

/-- The shape compatibility condition as the specification states it: the
inner dimension of op(A) equals the inner dimension of op(B), and the
outer dimensions of op(A) and op(B) equal the row and column counts of
C. -/
def gemmShapeOk (TA TB : Bool) (C A B : TMatrix) : Prop :=
  opCols TA A = opRows TB B ∧ opRows TA A = C.rows ∧ opCols TB B = C.cols

instance (TA TB : Bool) (C A B : TMatrix) :
    Decidable (gemmShapeOk TA TB C A B) := by
  unfold gemmShapeOk; infer_instance

/-- Embedding of BLAS_Add_Mat_x_Mat, vendor (CBLAS) build: zero-sized
operands and every per-branch dimension mismatch call exit(EXIT_FAILURE),
terminating the process; otherwise cblas_dgemm is called with the literal
argument list of the source (M = C.rows, N = C.cols, K = A.cols or
A.rows, lda = A.cols, ldb = B.cols, beta = 1, ldc = C.cols). -/
def BLAS_Add_Mat_x_Mat_cblas (C A B : TMatrix)
    (TransposeA TransposeB : Bool) (alpha : ℚ) : GemmOut :=
  if A.cols = 0 ∨ A.rows = 0 ∨ B.cols = 0 ∨ B.rows = 0 ∨ C.cols = 0 ∨
      C.rows = 0 then
    ⟨.exited EXIT_FAILURE, C, false⟩
  else if TransposeA then
    if TransposeB then
      if A.rows ≠ B.cols ∨ A.cols ≠ C.rows ∨ B.rows ≠ C.cols then
        ⟨.exited EXIT_FAILURE, C, false⟩
      else
        ⟨.returned EXIT_SUCCESS,
          ⟨C.rows, C.cols,
            cblas_dgemm true true C.rows C.cols A.rows alpha A.p A.cols
              B.p B.cols 1 C.p C.cols⟩, true⟩
    else
      if A.rows ≠ B.rows ∨ A.cols ≠ C.rows ∨ B.cols ≠ C.cols then
        ⟨.exited EXIT_FAILURE, C, false⟩
      else
        ⟨.returned EXIT_SUCCESS,
          ⟨C.rows, C.cols,
            cblas_dgemm true false C.rows C.cols A.rows alpha A.p A.cols
              B.p B.cols 1 C.p C.cols⟩, true⟩
  else
    if TransposeB then
      if A.cols ≠ B.cols ∨ A.rows ≠ C.rows ∨ B.rows ≠ C.cols then
        ⟨.exited EXIT_FAILURE, C, false⟩
      else
        ⟨.returned EXIT_SUCCESS,
          ⟨C.rows, C.cols,
            cblas_dgemm false true C.rows C.cols A.cols alpha A.p A.cols
              B.p B.cols 1 C.p C.cols⟩, true⟩
    else
      if A.cols ≠ B.rows ∨ A.rows ≠ C.rows ∨ B.cols ≠ C.cols then
        ⟨.exited EXIT_FAILURE, C, false⟩
      else
        ⟨.returned EXIT_SUCCESS,
          ⟨C.rows, C.cols,
            cblas_dgemm false false C.rows C.cols A.cols alpha A.p A.cols
              B.p B.cols 1 C.p C.cols⟩, true⟩

/-- The accumulate update the Eigen expression eigenC += alpha * op(A) *
op(B) evaluates to, entrywise on the flat row-major buffer of C. -/
def eigenGemmUpdate (TA TB : Bool) (C A B : TMatrix) (alpha : ℚ) :
    TMatrix :=
  ⟨C.rows, C.cols,
    (List.range C.p.length).map (fun idx =>
      let i := idx / C.cols
      let j := idx % C.cols
      C.p.getD idx 0 + alpha * (List.range (opCols TA A)).foldr (fun k s =>
        s + opA TA A i k * opA TB B k j) 0)⟩

/-- Embedding of BLAS_Add_Mat_x_Mat, Eigen build: the same degeneracy and
per-branch dimension checks as the vendor build, but every rejection is a
normal return of EXIT_FAILURE; on success the lazy Eigen expression
accumulates alpha * op(A) * op(B) into C. -/
def BLAS_Add_Mat_x_Mat_eigen (C A B : TMatrix)
    (TransposeA TransposeB : Bool) (alpha : ℚ) : GemmOut :=
  if A.cols = 0 ∨ A.rows = 0 ∨ B.cols = 0 ∨ B.rows = 0 ∨ C.cols = 0 ∨
      C.rows = 0 then
    ⟨.returned EXIT_FAILURE, C, false⟩
  else if TransposeA then
    if TransposeB then
      if A.rows ≠ B.cols ∨ A.cols ≠ C.rows ∨ B.rows ≠ C.cols then
        ⟨.returned EXIT_FAILURE, C, false⟩
      else
        ⟨.returned EXIT_SUCCESS, eigenGemmUpdate true true C A B alpha, true⟩
    else
      if A.rows ≠ B.rows ∨ A.cols ≠ C.rows ∨ B.cols ≠ C.cols then
        ⟨.returned EXIT_FAILURE, C, false⟩
      else
        ⟨.returned EXIT_SUCCESS, eigenGemmUpdate true false C A B alpha, true⟩
  else
    if TransposeB then
      if A.cols ≠ B.cols ∨ A.rows ≠ C.rows ∨ B.rows ≠ C.cols then
        ⟨.returned EXIT_FAILURE, C, false⟩
      else
        ⟨.returned EXIT_SUCCESS, eigenGemmUpdate false true C A B alpha, true⟩
    else
      if A.cols ≠ B.rows ∨ A.rows ≠ C.rows ∨ B.cols ≠ C.cols then
        ⟨.returned EXIT_FAILURE, C, false⟩
      else
        ⟨.returned EXIT_SUCCESS, eigenGemmUpdate false false C A B alpha, true⟩

/-- The two LAPACKE steps used by the vendor build of BLAS_InvertMatrix,
kept abstract since LAPACK is an external collaborator: dgetrf returns an
info code, the factored matrix and the pivot record; dgetri consumes the
pivot record and returns an info code and the reconstructed inverse. -/
structure LapackLU where
  dgetrf : TMatrix → Int × TMatrix × List Int
  dgetri : TMatrix → List Int → Int × TMatrix

/-- Outcome of the vendor build of BLAS_InvertMatrix: the returned exit
code, the final matrix contents, which backend steps were invoked, and
whether the pivot scratch buffer ipiv was allocated and whether the
delete of that buffer was reached before returning. -/
structure InvOut where
  code : Nat
  a : TMatrix
  getrfCalled : Bool
  getriCalled : Bool
  ipivAllocated : Bool
  ipivFreed : Bool
deriving DecidableEq

/-- Embedding of BLAS_InvertMatrix, vendor (LAPACKE) build: reject a
non-square matrix, allocate ipiv, run dgetrf, return EXIT_FAILURE when
its info is nonzero, run dgetri, return EXIT_FAILURE when its info is
nonzero, and only then reach the delete of ipiv and return success.  The
two early failure returns happen before the delete statement, which the
ipivFreed field records. -/
def BLAS_InvertMatrix_cblas (lap : LapackLU) (a : TMatrix) : InvOut :=
  if a.rows ≠ a.cols then ⟨EXIT_FAILURE, a, false, false, false, false⟩
  else if (lap.dgetrf a).1 ≠ 0 then
    ⟨EXIT_FAILURE, (lap.dgetrf a).2.1, true, false, true, false⟩
  else if (lap.dgetri (lap.dgetrf a).2.1 (lap.dgetrf a).2.2).1 ≠ 0 then
    ⟨EXIT_FAILURE, (lap.dgetri (lap.dgetrf a).2.1 (lap.dgetrf a).2.2).2,
      true, true, true, false⟩
  else
    ⟨EXIT_SUCCESS, (lap.dgetri (lap.dgetrf a).2.1 (lap.dgetrf a).2.2).2,
      true, true, true, true⟩

/-- Embedding of BLAS_InvertMatrix, Eigen build: reject a non-square
matrix, then evaluate eigenA = eigenA.inverse() inside a try block; the
abstract parameter inv returns none when the Eigen evaluation throws, in
which case the catch block returns EXIT_FAILURE with the matrix as it
was. -/
def BLAS_InvertMatrix_eigen (inv : TMatrix → Option TMatrix)
    (a : TMatrix) : Nat × TMatrix :=
  if a.rows ≠ a.cols then (EXIT_FAILURE, a)
  else
    match inv a with
    | some b => (EXIT_SUCCESS, b)
    | none => (EXIT_FAILURE, a)

/-- A LAPACKE oracle for the singular 1 x 1 zero matrix: per the LAPACK
documentation dgetrf reports info = 1 when U(1,1) is exactly zero, which
it is for that input. -/
def lapSingularStub : LapackLU :=
  ⟨fun a => (1, a, []), fun a _ => (0, a)⟩

/-- A LAPACKE oracle for inputs on which both steps succeed with info =
0, leaving the buffer untouched; on a 0 x 0 input this is the documented
LAPACK quick-return behaviour. -/
def lapSuccessStub : LapackLU :=
  ⟨fun a => (0, a, []), fun a _ => (0, a)⟩

/-- The 0 x 0 matrix. -/
def m00 : TMatrix := ⟨0, 0, []⟩

/-! ## Claim theorems -/

/-- Claim C1. The claim states that with the transpose flag set the shape
check of BLAS_Add_Mat_x_Vec is taken against the transposed matrix, so a
call with A.cols different from the length of C must return a
ShapeMismatch failure.  The code instead applies the untransposed check
A.rows == C.N and A.cols == V.N in both branches: at Transpose = true,
A = 3 x 2, C of length 3, V of length 2 (where A.cols = 2 differs from
the length 3 of C, so the claim demands a failure return) the check
passes and the backend call is issued with buffer extents that violate
the documented dgemv requirements (an out-of-bounds read of V in the
vendor build, a failed dimension assertion in the Eigen build). -/
theorem claim_C1_transposed_check_divergence :
    BLAS_Add_Mat_x_Vec_cblas ⟨3, [0, 0, 0]⟩ ⟨3, 2, [1, 0, 0, 1, 1, 1]⟩
        ⟨2, [1, 2]⟩ true 1 = ⟨.undef, ⟨3, [0, 0, 0]⟩, true⟩ ∧
    BLAS_Add_Mat_x_Vec_eigen ⟨3, [0, 0, 0]⟩ ⟨3, 2, [1, 0, 0, 1, 1, 1]⟩
        ⟨2, [1, 2]⟩ true 1 = ⟨.undef, ⟨3, [0, 0, 0]⟩, true⟩ := by
  exact ⟨rfl, rfl⟩

/-- Claim C2. The claim states that BLAS_Add_Mat_x_Mat never terminates
the process on degenerate or incompatible operands in either backend.
The vendor (CBLAS) build calls exit(EXIT_FAILURE) instead of returning:
here evaluated on a degenerate call (all operands 0 x 0) and on an
incompatible untransposed call (A 1 x 2, B 1 x 2, C 1 x 1, where A.cols
differs from B.rows). -/
theorem claim_C2_vendor_gemm_terminates :
    (BLAS_Add_Mat_x_Mat_cblas m00 m00 m00 false false 1).status =
      .exited EXIT_FAILURE ∧
    (BLAS_Add_Mat_x_Mat_cblas ⟨1, 1, [0]⟩ ⟨1, 2, [1, 2]⟩ ⟨1, 2, [3, 4]⟩
        false false 1).status = .exited EXIT_FAILURE := by
  exact ⟨rfl, rfl⟩

/-- Claim C3. The claim states that the pivot scratch buffer ipiv of
BLAS_InvertMatrix is released on every exit path.  In the vendor build
the two failure returns (nonzero info from dgetrf or dgetri) happen
before the delete statement, so the buffer leaks: on the singular 1 x 1
zero matrix, for which dgetrf reports info = 1, the call returns
EXIT_FAILURE with ipiv allocated and never freed. -/
theorem claim_C3_pivot_leak_on_factorization_failure :
    BLAS_InvertMatrix_cblas lapSingularStub ⟨1, 1, [0]⟩ =
      ⟨EXIT_FAILURE, ⟨1, 1, [0]⟩, true, false, true, false⟩ := by
  exact rfl

/-- Claim C4, counterexample. The claim states that every gemv call with
a zero-sized operand returns a failure with no backend call issued.  The
gemv wrapper has no degeneracy check: with A 0 x 0 and C, V empty the
shape check passes and both builds issue the backend call and return
success. -/
theorem claim_C4_counterexample :
    BLAS_Add_Mat_x_Vec_cblas ⟨0, []⟩ m00 ⟨0, []⟩ false 1 =
      ⟨.returned EXIT_SUCCESS, ⟨0, []⟩, true⟩ ∧
    BLAS_Add_Mat_x_Vec_eigen ⟨0, []⟩ m00 ⟨0, []⟩ false 1 =
      ⟨.returned EXIT_SUCCESS, ⟨0, []⟩, true⟩ := by
  exact ⟨rfl, rfl⟩

/-- Claim C4, amended. Every gemm call with a zero-sized operand is
rejected before any backend call, as a failure return in the Eigen build
and as a process termination in the vendor build; gemv performs no
degeneracy check, and in particular the call with A 0 x 0 and C, V empty
passes the shape check, issues the backend call and returns success in
both builds, for either transpose flag. -/
theorem claim_C4_amended :
    (∀ (C A B : TMatrix) (TA TB : Bool) (alpha : ℚ),
      gemmDegenerate C A B →
      BLAS_Add_Mat_x_Mat_eigen C A B TA TB alpha =
        ⟨.returned EXIT_FAILURE, C, false⟩ ∧
      BLAS_Add_Mat_x_Mat_cblas C A B TA TB alpha =
        ⟨.exited EXIT_FAILURE, C, false⟩) ∧
    (∀ (T : Bool) (alpha : ℚ),
      BLAS_Add_Mat_x_Vec_cblas ⟨0, []⟩ m00 ⟨0, []⟩ T alpha =
        ⟨.returned EXIT_SUCCESS, ⟨0, []⟩, true⟩ ∧
      BLAS_Add_Mat_x_Vec_eigen ⟨0, []⟩ m00 ⟨0, []⟩ T alpha =
        ⟨.returned EXIT_SUCCESS, ⟨0, []⟩, true⟩) := by
  constructor
  · intro C A B TA TB alpha h
    unfold gemmDegenerate at h
    unfold BLAS_Add_Mat_x_Mat_eigen BLAS_Add_Mat_x_Mat_cblas
    rw [if_pos h, if_pos h]
    exact ⟨rfl, rfl⟩
  · intro T alpha
    cases T <;> exact ⟨rfl, rfl⟩

/-- Claim C4, witness for the amended statement at concrete inputs: a
degenerate gemm call on 0 x 0 operands and a zero-sized gemv call. -/
theorem claim_C4_amended_witness :
    (BLAS_Add_Mat_x_Mat_eigen m00 m00 m00 false false 1 =
        ⟨.returned EXIT_FAILURE, m00, false⟩ ∧
      BLAS_Add_Mat_x_Mat_cblas m00 m00 m00 false false 1 =
        ⟨.exited EXIT_FAILURE, m00, false⟩) ∧
    (BLAS_Add_Mat_x_Vec_cblas ⟨0, []⟩ m00 ⟨0, []⟩ true 1 =
        ⟨.returned EXIT_SUCCESS, ⟨0, []⟩, true⟩ ∧
      BLAS_Add_Mat_x_Vec_eigen ⟨0, []⟩ m00 ⟨0, []⟩ true 1 =
        ⟨.returned EXIT_SUCCESS, ⟨0, []⟩, true⟩) :=
  ⟨claim_C4_amended.1 m00 m00 m00 false false 1 (by decide),
    claim_C4_amended.2 true 1⟩

/-- Claim C5. The claim states that every gemv call whose shape
preconditions hold updates C in place to alpha times op(A) times V plus
C.  For a transposed call on the non-square A = [[1,2,3],[4,5,6]] with C
= [10,20,30] and V = [1,1] the transposed shape preconditions hold (the
length of C equals A.cols and the length of V equals A.rows) and the
claim demands C become [15,27,39], but the code rejects the call with no
update because its check compares A.rows with the length of C.  The
second conjunct records that the concrete scenario named by the claim (A
the 2 x 2 identity, V = [3,4], alpha = 1) does accumulate as stated. -/
theorem claim_C5_transposed_accumulate_divergence :
    BLAS_Add_Mat_x_Vec_cblas ⟨3, [10, 20, 30]⟩ ⟨2, 3, [1, 2, 3, 4, 5, 6]⟩
        ⟨2, [1, 1]⟩ true 1 =
      ⟨.returned EXIT_FAILURE, ⟨3, [10, 20, 30]⟩, false⟩ ∧
    BLAS_Add_Mat_x_Vec_cblas ⟨2, [100, 200]⟩ ⟨2, 2, [1, 0, 0, 1]⟩
        ⟨2, [3, 4]⟩ false 1 =
      ⟨.returned EXIT_SUCCESS, ⟨2, [103, 204]⟩, true⟩ ∧
    BLAS_Add_Mat_x_Vec_eigen ⟨2, [100, 200]⟩ ⟨2, 2, [1, 0, 0, 1]⟩
        ⟨2, [3, 4]⟩ false 1 =
      ⟨.returned EXIT_SUCCESS, ⟨2, [103, 204]⟩, true⟩ := by
  refine ⟨rfl, ?_, ?_⟩ <;>
    norm_num [BLAS_Add_Mat_x_Vec_cblas, BLAS_Add_Mat_x_Vec_eigen,
      cblas_dgemv, eigenGemvUpdate, opA, opRows, opCols, EXIT_SUCCESS,
      List.range_succ]

/-- Claim C6, counterexample. The claim states that gemm succeeds exactly
when the inner and outer dimensions of op(A) and op(B) agree with C.  On
the all 0 x 0 untransposed call those dimension equalities all hold (each
side is zero), yet the code rejects the call through its degeneracy
check: the Eigen build returns EXIT_FAILURE and the vendor build
terminates the process. -/
theorem claim_C6_counterexample :
    gemmShapeOk false false m00 m00 m00 ∧
    (BLAS_Add_Mat_x_Mat_eigen m00 m00 m00 false false 1).status =
      .returned EXIT_FAILURE ∧
    (BLAS_Add_Mat_x_Mat_cblas m00 m00 m00 false false 1).status =
      .exited EXIT_FAILURE := by
  exact ⟨by decide, rfl, rfl⟩

/-- Claim C6, amended. For each of the four transpose combinations, gemm
succeeds exactly when no operand has zero rows or zero columns and the
inner dimension of op(A) equals the inner dimension of op(B) while their
outer dimensions equal the row and column counts of C; otherwise the
Eigen build returns an EXIT_FAILURE (ShapeMismatch) result and the vendor
build terminates the process with exit(EXIT_FAILURE). -/
theorem claim_C6_amended (C A B : TMatrix) (TA TB : Bool) (alpha : ℚ) :
    ((BLAS_Add_Mat_x_Mat_eigen C A B TA TB alpha).status =
        .returned EXIT_SUCCESS ↔
      (¬gemmDegenerate C A B ∧ gemmShapeOk TA TB C A B)) ∧
    ((BLAS_Add_Mat_x_Mat_eigen C A B TA TB alpha).status =
        .returned EXIT_FAILURE ↔
      ¬(¬gemmDegenerate C A B ∧ gemmShapeOk TA TB C A B)) ∧
    ((BLAS_Add_Mat_x_Mat_cblas C A B TA TB alpha).status =
        .returned EXIT_SUCCESS ↔
      (¬gemmDegenerate C A B ∧ gemmShapeOk TA TB C A B)) ∧
    ((BLAS_Add_Mat_x_Mat_cblas C A B TA TB alpha).status =
        .exited EXIT_FAILURE ↔
      ¬(¬gemmDegenerate C A B ∧ gemmShapeOk TA TB C A B)) := by
  unfold BLAS_Add_Mat_x_Mat_eigen BLAS_Add_Mat_x_Mat_cblas gemmDegenerate
    gemmShapeOk opRows opCols EXIT_SUCCESS EXIT_FAILURE
  cases TA <;> cases TB <;> split_ifs <;> simp_all <;> tauto

/-- Claim C7. In both builds a failure reported by the factorization step
stops the inversion: in the vendor build, a square input on which dgetrf
reports nonzero info makes BLAS_InvertMatrix return EXIT_FAILURE without
ever calling dgetri; in the Eigen build, a square input on which the
Eigen inverse evaluation throws makes the call return EXIT_FAILURE
through the catch block. -/
theorem claim_C7_factorization_failure_stops :
    (∀ (lap : LapackLU) (a : TMatrix), a.rows = a.cols →
      (lap.dgetrf a).1 ≠ 0 →
      BLAS_InvertMatrix_cblas lap a =
        ⟨EXIT_FAILURE, (lap.dgetrf a).2.1, true, false, true, false⟩) ∧
    (∀ (inv : TMatrix → Option TMatrix) (a : TMatrix), a.rows = a.cols →
      inv a = none →
      BLAS_InvertMatrix_eigen inv a = (EXIT_FAILURE, a)) := by
  constructor
  · intro lap a hsq hinfo
    unfold BLAS_InvertMatrix_cblas
    rw [if_neg (fun hc => hc hsq), if_pos hinfo]
  · intro inv a hsq hthrow
    unfold BLAS_InvertMatrix_eigen
    rw [if_neg (fun hc => hc hsq), hthrow]

/-- Claim C7, witness at concrete inputs: the singular 1 x 1 zero matrix
under the vendor oracle that reports info = 1 from dgetrf, and a 1 x 1
matrix under an Eigen evaluation that throws. -/
theorem claim_C7_witness :
    BLAS_InvertMatrix_cblas lapSingularStub ⟨1, 1, [0]⟩ =
      ⟨EXIT_FAILURE, ⟨1, 1, [0]⟩, true, false, true, false⟩ ∧
    BLAS_InvertMatrix_eigen (fun _ => none) ⟨1, 1, [5]⟩ =
      (EXIT_FAILURE, ⟨1, 1, [5]⟩) :=
  ⟨claim_C7_factorization_failure_stops.1 lapSingularStub ⟨1, 1, [0]⟩ rfl
      (by decide),
    claim_C7_factorization_failure_stops.2 (fun _ => none) ⟨1, 1, [5]⟩ rfl
      rfl⟩

/-- Claim C8. A non-square input makes BLAS_InvertMatrix return
EXIT_FAILURE immediately in both builds: no backend step is invoked, no
scratch is allocated, and the matrix is returned with its contents
untouched. -/
theorem claim_C8_not_square_rejected :
    ∀ (lap : LapackLU) (inv : TMatrix → Option TMatrix) (a : TMatrix),
      a.rows ≠ a.cols →
      BLAS_InvertMatrix_cblas lap a =
        ⟨EXIT_FAILURE, a, false, false, false, false⟩ ∧
      BLAS_InvertMatrix_eigen inv a = (EXIT_FAILURE, a) := by
  intro lap inv a h
  unfold BLAS_InvertMatrix_cblas BLAS_InvertMatrix_eigen
  rw [if_pos h, if_pos h]
  exact ⟨rfl, rfl⟩

/-- Claim C8, witness at a concrete 2 x 3 input with concrete backends. -/
theorem claim_C8_witness :
    BLAS_InvertMatrix_cblas lapSuccessStub ⟨2, 3, [1, 2, 3, 4, 5, 6]⟩ =
      ⟨EXIT_FAILURE, ⟨2, 3, [1, 2, 3, 4, 5, 6]⟩, false, false, false,
        false⟩ ∧
    BLAS_InvertMatrix_eigen (fun m => some m) ⟨2, 3, [1, 2, 3, 4, 5, 6]⟩ =
      (EXIT_FAILURE, ⟨2, 3, [1, 2, 3, 4, 5, 6]⟩) :=
  claim_C8_not_square_rejected lapSuccessStub (fun m => some m)
    ⟨2, 3, [1, 2, 3, 4, 5, 6]⟩ (by decide)

/-- Claim C9. The claim states that only the buffer contents of C are
ever mutated by gemv and gemm.  With Transpose = true, A = 2 x 3, C of
length 2 and V of length 3 the gemv shape check passes, and the vendor
backend call then writes the three entries of the transposed product
through a two-element C buffer: an out-of-bounds write mutating memory
outside C (in the Eigen build the same call fails the dimension
assertion), modelled as the undef outcome. -/
theorem claim_C9_oob_write_outside_C :
    (BLAS_Add_Mat_x_Vec_cblas ⟨2, [0, 0]⟩ ⟨2, 3, [1, 2, 3, 4, 5, 6]⟩
        ⟨3, [7, 8, 9]⟩ true 1).status = .undef ∧
    (BLAS_Add_Mat_x_Vec_eigen ⟨2, [0, 0]⟩ ⟨2, 3, [1, 2, 3, 4, 5, 6]⟩
        ⟨3, [7, 8, 9]⟩ true 1).status = .undef := by
  exact ⟨rfl, rfl⟩

/-- Claim C10. The 0 x 0 matrix passes the squareness check and both
backend steps are invoked; with the backend steps reporting success on
the empty input (the documented LAPACK quick-return for a zero dimension,
and the trivially succeeding Eigen inverse of an empty matrix), the
operation returns EXIT_SUCCESS in both builds. -/
theorem claim_C10_invert_empty_succeeds :
    ∀ (lap : LapackLU) (inv : TMatrix → Option TMatrix),
      (lap.dgetrf m00).1 = 0 →
      (lap.dgetri (lap.dgetrf m00).2.1 (lap.dgetrf m00).2.2).1 = 0 →
      inv m00 = some m00 →
      BLAS_InvertMatrix_cblas lap m00 =
        ⟨EXIT_SUCCESS, (lap.dgetri (lap.dgetrf m00).2.1
          (lap.dgetrf m00).2.2).2, true, true, true, true⟩ ∧
      BLAS_InvertMatrix_eigen inv m00 = (EXIT_SUCCESS, m00) := by
  intro lap inv h1 h2 h3
  unfold BLAS_InvertMatrix_cblas BLAS_InvertMatrix_eigen
  rw [if_neg (by decide : ¬m00.rows ≠ m00.cols),
    if_neg (fun hc => hc h1), if_neg (fun hc => hc h2), h3]
  exact ⟨rfl, rfl⟩

/-- Claim C10, witness with the quick-return vendor oracle and the
identity Eigen evaluation on the 0 x 0 matrix. -/
theorem claim_C10_witness :
    BLAS_InvertMatrix_cblas lapSuccessStub m00 =
      ⟨EXIT_SUCCESS, m00, true, true, true, true⟩ ∧
    BLAS_InvertMatrix_eigen (fun m => some m) m00 = (EXIT_SUCCESS, m00) :=
  claim_C10_invert_empty_succeeds lapSuccessStub (fun m => some m) rfl rfl
    rfl

end dftd4
